import Mathlib

/-!
Verification of the sensai-ai PDF-quiz feature: a shallow embedding of the
two Next.js proxy route handlers (upload proxy and quiz-fetch proxy) and of
the client-side state logic of the `PDFUpload` and `PDFQuizView` components,
together with theorems settling the specification's claims about them.

Conventions of the embedding:
  * Parsed JSON documents are opaque values; we use `JsonValue` (a stand-in
    type) for them.  Relaying a payload "verbatim" means returning the same
    `JsonValue`.
  * Fallible steps (a `fetch` that rejects, a `json()` call that throws) are
    modelled by `Option`/explicit outcome constructors.
  * React state updates within one handler are modelled as a single record
    update producing the post-handler state.
  * JS `String.prototype.trim` is modelled by `jsTrim`, an executable
    function that removes leading and trailing whitespace characters.
-/

/-- Opaque stand-in for a parsed JSON document relayed by the proxies. -/
abbrev JsonValue := String

/-- Model of JS `String.prototype.trim`: remove leading and trailing
whitespace from the string. -/
def jsTrim (s : String) : String :=
  ⟨((s.data.dropWhile Char.isWhitespace).reverse.dropWhile Char.isWhitespace).reverse⟩

/-! ## Quiz data model (from `PDFQuizView.tsx` interfaces) -/

/-- `question_type: "mcq" | "short_answer"`. -/
inductive QuestionType where
  | mcq
  | short_answer
deriving Repr, DecidableEq

/-- `interface QuizQuestion` of `PDFQuizView.tsx`. -/
structure QuizQuestion where
  id : Nat
  question_text : String
  question_type : QuestionType
  options : Option (List String)
  correct_answer : String
  hint : String
  citation : String
  points : Nat
deriving Repr, DecidableEq

/-- The quiz object held in `PDFQuizView` state: `{id, title, questions}`. -/
structure Quiz where
  id : Nat
  title : String
  questions : List QuizQuestion
deriving Repr, DecidableEq

/-- The `answers` React state: `Record<number, string>`, a partial map from
question id to the typed answer.  `none` models an absent key. -/
abbrev Answers := Nat → Option String

/-- The `showHints` React state: `Record<number, boolean>`. -/
abbrev ShowHints := Nat → Option Bool

/-- The per-question test inside the submit button's `disabled` expression:
`!answers[q.id] || answers[q.id].trim() === ""`.  An absent key is falsy,
the empty string is falsy, otherwise the trimmed value is compared to `""`. -/
def answerBlank (answers : Answers) (qid : Nat) : Bool :=
  match answers qid with
  | none => true
  | some a => a == "" || jsTrim a == ""

/-- The submit button's `disabled` expression in `PDFQuizView`:
`isSubmitting || !quiz || quiz.questions.some(q => !answers[q.id] || answers[q.id].trim() === "")`. -/
def submitDisabled (isSubmitting : Bool) (quiz : Option Quiz) (answers : Answers) : Bool :=
  isSubmitting ||
    match quiz with
    | none => true
    | some qz => qz.questions.any fun q => answerBlank answers q.id

/-- `toggleHint` of `PDFQuizView`:
`setShowHints(prev => ({...prev, [questionId]: !prev[questionId]}))`.
JS negation of an absent (`undefined`) entry yields `true`. -/
def toggleHint (questionId : Nat) (prev : ShowHints) : ShowHints :=
  fun k => if k = questionId then some (!((prev questionId).getD false)) else prev k

/-- Whether question `qid`'s hint panel is rendered: the JSX guards hint
rendering with the truthiness of `showHints[question.id]`. -/
def hintVisible (m : ShowHints) (qid : Nat) : Bool :=
  (m qid).getD false

/-- `answerBlank` is `false` exactly when the map holds an answer whose
trimmed value is non-empty. -/
theorem answerBlank_eq_false_iff (a : Answers) (i : Nat) :
    answerBlank a i = false ↔ ∃ ans, a i = some ans ∧ jsTrim ans ≠ "" := by
  unfold answerBlank
  cases h : a i with
  | none => simp
  | some s =>
    simp only [Bool.or_eq_false_iff, beq_eq_false_iff_ne, ne_eq, Option.some.injEq]
    constructor
    · rintro ⟨-, hs⟩
      exact ⟨s, rfl, hs⟩
    · rintro ⟨ans, rfl, hs⟩
      refine ⟨fun hempty => hs ?_, hs⟩
      subst hempty
      rfl

/-- C1: with a loaded quiz, whenever the submit button is enabled (so a click
can trigger `handleSubmit`'s POST to the submit endpoint), every question of
the quiz has a recorded answer whose trimmed value is non-empty; conversely,
if some question lacks such an answer the button is disabled (for every value
of `isSubmitting`), so the submission request is never issued from an
incomplete state. -/
theorem submit_enabled_iff_all_answered (s : Bool) (qz : Quiz) (a : Answers) :
    (submitDisabled s (some qz) a = false →
      ∀ q ∈ qz.questions, ∃ ans, a q.id = some ans ∧ jsTrim ans ≠ "") ∧
    ((∃ q ∈ qz.questions, ¬ ∃ ans, a q.id = some ans ∧ jsTrim ans ≠ "") →
      submitDisabled s (some qz) a = true) := by
  constructor
  · intro h q hq
    simp only [submitDisabled, Bool.or_eq_false_iff] at h
    have h2 := List.any_eq_false.mp h.2 q hq
    exact (answerBlank_eq_false_iff a q.id).mp (by simpa using h2)
  · rintro ⟨q, hq, hnone⟩
    have hb : answerBlank a q.id = true := by
      rcases hb : answerBlank a q.id with _ | _
      · exact absurd ((answerBlank_eq_false_iff a q.id).mp hb) hnone
      · rfl
    have hany : (qz.questions.any fun q => answerBlank a q.id) = true :=
      List.any_eq_true.mpr ⟨q, hq, hb⟩
    simp [submitDisabled, hany]

/-- Witness for the C1 theorem at a concrete quiz and answer map. -/
theorem submit_enabled_iff_all_answered_witness :
    (∀ q ∈ [({ id := 1, question_text := "Q1", question_type := .mcq,
                options := some ["a", "b"], correct_answer := "a",
                hint := "h", citation := "c", points := 1 } : QuizQuestion)],
      ∃ ans, (fun n => if n = 1 then some "a" else none) q.id = some ans ∧
        jsTrim ans ≠ "") := by
  have h := submit_enabled_iff_all_answered false
    { id := 7, title := "T",
      questions := [{ id := 1, question_text := "Q1", question_type := .mcq,
                      options := some ["a", "b"], correct_answer := "a",
                      hint := "h", citation := "c", points := 1 }] }
    (fun n => if n = 1 then some "a" else none)
  exact h.1 (by decide)

/-- C2 counterexample: the `disabled` expression is not equal to the pure
answer-completeness predicate for every value of the other state components:
with `isSubmitting = true` and a fully answered single-question quiz, the
button is disabled although no question has a missing or blank answer. -/
theorem submitDisabled_not_only_blank :
    submitDisabled true
      (some { id := 7, title := "T",
              questions := [{ id := 1, question_text := "Q1",
                              question_type := .mcq, options := some ["a", "b"],
                              correct_answer := "a", hint := "h",
                              citation := "c", points := 1 }] })
      (fun n => if n = 1 then some "a" else none) = true ∧
    ∀ q ∈ [({ id := 1, question_text := "Q1", question_type := .mcq,
              options := some ["a", "b"], correct_answer := "a",
              hint := "h", citation := "c", points := 1 } : QuizQuestion)],
      answerBlank (fun n => if n = 1 then some "a" else none) q.id = false := by
  decide

/-- C2 (amended): with a loaded quiz and no submission in flight
(`isSubmitting = false`), the submit action is disabled if and only if at
least one question has an answer that is absent, empty, or whitespace-only.
(With `isSubmitting = true` the button is disabled regardless.) -/
theorem submitDisabled_iff_some_blank (qz : Quiz) (a : Answers) :
    submitDisabled false (some qz) a = true ↔
      ∃ q ∈ qz.questions, answerBlank a q.id = true := by
  simp [submitDisabled, List.any_eq_true]

/-- Witness for the amended C2 theorem at a concrete quiz with one
unanswered question. -/
theorem submitDisabled_iff_some_blank_witness :
    ∃ q ∈ [({ id := 1, question_text := "Q1", question_type := .mcq,
              options := some ["a", "b"], correct_answer := "a",
              hint := "h", citation := "c", points := 1 } : QuizQuestion)],
      answerBlank (fun _ => none) q.id = true :=
  (submitDisabled_iff_some_blank
    { id := 7, title := "T",
      questions := [{ id := 1, question_text := "Q1", question_type := .mcq,
                      options := some ["a", "b"], correct_answer := "a",
                      hint := "h", citation := "c", points := 1 }] }
    (fun _ => none)).mp (by decide)

/-- C8: toggling a question's hint twice restores its rendered visibility,
and a single toggle leaves every other question's `showHints` entry (hence
its rendered visibility) unchanged. -/
theorem toggleHint_involutive_and_local (m : ShowHints) (q : Nat) :
    hintVisible (toggleHint q (toggleHint q m)) q = hintVisible m q ∧
    ∀ k, k ≠ q → toggleHint q m k = m k := by
  constructor
  · simp [toggleHint, hintVisible]
  · intro k hk
    simp [toggleHint, hk]

/-- Witness for the C8 theorem at a concrete hint map and question ids. -/
theorem toggleHint_involutive_and_local_witness :
    hintVisible (toggleHint 1 (toggleHint 1 (fun n => if n = 2 then some true else none))) 1 =
      hintVisible (fun n => if n = 2 then some true else none) 1 ∧
    toggleHint 1 (fun n => if n = 2 then some true else none) 2 =
      (fun n => if n = 2 then some true else none) 2 := by
  have h := toggleHint_involutive_and_local (fun n => if n = 2 then some true else none) 1
  exact ⟨h.1, h.2 2 (by decide)⟩

/-! ## Proxy route handlers (the two unnamed Next.js route files) -/

/-- The request a proxy hands to `fetch` against the backend.  The headers
object literal in both handlers always contains the `Authorization` key, so
the field is total; `contentType` is `none` when no `Content-Type` header is
set (the GET proxy). -/
structure BackendRequest where
  method : String
  url : String
  contentType : Option String
  authorization : String
  body : Option JsonValue
deriving Repr, DecidableEq

/-- Body of a proxy's `NextResponse.json(...)`: either the relayed backend
payload or an object `{error: message}`. -/
inductive ProxyBody where
  | payload (data : JsonValue)
  | errorObj (message : String)
deriving Repr, DecidableEq

/-- A proxy's HTTP response: JSON body plus status code (200 is
`NextResponse.json`'s default status). -/
structure ProxyResponse where
  body : ProxyBody
  status : Nat
deriving Repr, DecidableEq

/-- `Response.ok` of the Fetch API: status in the range 200-299. -/
def respOk (status : Nat) : Bool :=
  200 ≤ status && status ≤ 299

/-- Outcome of the proxy's `fetch` call against the backend.
`fetchThrow` is a rejected fetch (network failure); `response` carries the
backend status, status text, body text, and the result of `response.json()`
(`none` when parsing the body as JSON throws). -/
inductive FetchOutcome where
  | fetchThrow
  | response (status : Nat) (statusText : String) (bodyText : String)
      (json : Option JsonValue)
deriving Repr, DecidableEq

/-- The `fetch` request built by the upload proxy (`POST` handler):
`POST {BACKEND_URL}/pdf-quizzes/upload` with JSON content type, the incoming
`Authorization` header defaulted to `""`, and the parsed incoming body
re-serialized unchanged. -/
def uploadBackendRequest (backendUrl : String) (auth : Option String)
    (body : JsonValue) : BackendRequest :=
  { method := "POST"
    url := backendUrl ++ "/pdf-quizzes/upload"
    contentType := some "application/json"
    authorization := auth.getD ""
    body := some body }

/-- The `fetch` request built by the quiz-fetch proxy (`GET` handler):
`GET {BACKEND_URL}/pdf-quizzes/quiz/{quizId}` with the incoming
`Authorization` header defaulted to `""` and no body. -/
def quizBackendRequest (backendUrl : String) (auth : Option String)
    (quizId : String) : BackendRequest :=
  { method := "GET"
    url := backendUrl ++ "/pdf-quizzes/quiz/" ++ quizId
    contentType := none
    authorization := auth.getD ""
    body := none }

/-- The upload proxy `POST` handler.  Inputs: the backend base URL, the
incoming `Authorization` header, the result of `request.json()` (`none` when
it throws), and the fetch outcome.  Returns the list of backend calls made
and the proxy's response. -/
def uploadProxyPOST (backendUrl : String) (auth : Option String)
    (incomingJson : Option JsonValue) (outcome : FetchOutcome) :
    List BackendRequest × ProxyResponse :=
  match incomingJson with
  | none => ([], ⟨.errorObj "Internal server error", 500⟩)
  | some body =>
    let req := uploadBackendRequest backendUrl auth body
    match outcome with
    | .fetchThrow => ([req], ⟨.errorObj "Internal server error", 500⟩)
    | .response status statusText _ json =>
      if !(respOk status) then
        ([req], ⟨.errorObj ("Backend error: " ++ statusText), status⟩)
      else
        match json with
        | none => ([req], ⟨.errorObj "Internal server error", 500⟩)
        | some d => ([req], ⟨.payload d, 200⟩)

/-- The quiz-fetch proxy `GET` handler.  Inputs: the backend base URL, the
incoming `Authorization` header, the `quizId` path parameter, and the fetch
outcome.  Returns the list of backend calls made and the proxy's response. -/
def quizFetchGET (backendUrl : String) (auth : Option String)
    (quizId : String) (outcome : FetchOutcome) :
    List BackendRequest × ProxyResponse :=
  let req := quizBackendRequest backendUrl auth quizId
  match outcome with
  | .fetchThrow => ([req], ⟨.errorObj "Internal server error", 500⟩)
  | .response status statusText _ json =>
    if !(respOk status) then
      ([req], ⟨.errorObj ("Backend error: " ++ statusText), status⟩)
    else
      match json with
      | none => ([req], ⟨.errorObj "Internal server error", 500⟩)
      | some d => ([req], ⟨.payload d, 200⟩)

/-- The upload proxy issues exactly the one forwarded backend call whenever
the incoming body parsed, whatever the backend then does. -/
theorem uploadProxyPOST_calls (u : String) (auth : Option String)
    (b : JsonValue) (o : FetchOutcome) :
    (uploadProxyPOST u auth (some b) o).1 = [uploadBackendRequest u auth b] := by
  cases o with
  | fetchThrow => rfl
  | response status stext btext j =>
    cases j <;> cases hr : respOk status <;> simp [uploadProxyPOST, hr]

/-- The quiz-fetch proxy issues exactly the one forwarded backend call,
whatever the backend does. -/
theorem quizFetchGET_calls (u : String) (auth : Option String)
    (qid : String) (o : FetchOutcome) :
    (quizFetchGET u auth qid o).1 = [quizBackendRequest u auth qid] := by
  cases o with
  | fetchThrow => rfl
  | response status stext btext j =>
    cases j <;> cases hr : respOk status <;> simp [quizFetchGET, hr]

/-- C3: both proxies share the two error shapes.  On a non-2xx backend
response the proxy returns `{error: "Backend error: " + statusText}` with the
backend's status code; when the fetch rejects, when the backend body fails to
parse as JSON, or (upload proxy) when the incoming request body fails to
parse as JSON, the proxy returns `{error: "Internal server error"}` with
status 500. -/
theorem proxy_error_shapes (u : String) (auth : Option String) (b : JsonValue)
    (qid : String) (status : Nat) (stext btext : String) (j : Option JsonValue) :
    (respOk status = false →
      (uploadProxyPOST u auth (some b) (.response status stext btext j)).2 =
        ⟨.errorObj ("Backend error: " ++ stext), status⟩ ∧
      (quizFetchGET u auth qid (.response status stext btext j)).2 =
        ⟨.errorObj ("Backend error: " ++ stext), status⟩) ∧
    (uploadProxyPOST u auth (some b) .fetchThrow).2 =
      ⟨.errorObj "Internal server error", 500⟩ ∧
    (quizFetchGET u auth qid .fetchThrow).2 =
      ⟨.errorObj "Internal server error", 500⟩ ∧
    (respOk status = true →
      (uploadProxyPOST u auth (some b) (.response status stext btext none)).2 =
        ⟨.errorObj "Internal server error", 500⟩ ∧
      (quizFetchGET u auth qid (.response status stext btext none)).2 =
        ⟨.errorObj "Internal server error", 500⟩) ∧
    (∀ o, (uploadProxyPOST u auth none o).2 =
      ⟨.errorObj "Internal server error", 500⟩) := by
  refine ⟨fun h => ?_, rfl, rfl, fun h => ?_, fun o => rfl⟩
  · constructor <;> simp [uploadProxyPOST, quizFetchGET, h]
  · constructor <;> simp [uploadProxyPOST, quizFetchGET, h]

/-- Witness for the C3 theorem: a backend 404, a rejected fetch, and a 200
with an unparseable body, at concrete inputs. -/
theorem proxy_error_shapes_witness :
    (uploadProxyPOST "http://localhost:8000" (some "Bearer 1") (some "doc")
        (.response 404 "Not Found" "missing" none)).2 =
      ⟨.errorObj "Backend error: Not Found", 404⟩ ∧
    (quizFetchGET "http://localhost:8000" (some "Bearer 1") "5" .fetchThrow).2 =
      ⟨.errorObj "Internal server error", 500⟩ ∧
    (uploadProxyPOST "http://localhost:8000" (some "Bearer 1") (some "doc")
        (.response 200 "OK" "" none)).2 =
      ⟨.errorObj "Internal server error", 500⟩ := by
  have h1 := proxy_error_shapes "http://localhost:8000" (some "Bearer 1") "doc"
    "5" 404 "Not Found" "missing" none
  have h2 := proxy_error_shapes "http://localhost:8000" (some "Bearer 1") "doc"
    "5" 200 "OK" "" none
  exact ⟨(h1.1 (by decide)).1, h1.2.2.1, (h2.2.2.2.1 (by decide)).1⟩

/-- C7 counterexample: an upload-proxy invocation whose incoming body fails
to parse as JSON makes zero backend calls (not exactly one) and answers the
internal error; so "exactly one backend call for every incoming request" does
not hold for the upload proxy. -/
theorem uploadProxy_zero_calls_on_bad_body :
    (uploadProxyPOST "http://localhost:8000" (some "Bearer 1") none
        .fetchThrow).1.length = 0 ∧
    (uploadProxyPOST "http://localhost:8000" (some "Bearer 1") none
        .fetchThrow).2 = ⟨.errorObj "Internal server error", 500⟩ := by
  exact ⟨rfl, rfl⟩

/-- C7 (amended): the quiz-fetch proxy on every request, and the upload proxy
on every request whose body parses as JSON, make exactly one backend call:
the upload proxy POSTs the parsed body unchanged to
`{backend}/pdf-quizzes/upload`, the fetch proxy GETs
`{backend}/pdf-quizzes/quiz/{id}`, both passing through the incoming
`Authorization` header (defaulted to `""`); on backend success with a
parseable JSON payload, that payload is relayed verbatim with status 200. -/
theorem proxies_forward_one_call (u : String) (auth : Option String)
    (b : JsonValue) (qid : String) (o : FetchOutcome) (status : Nat)
    (stext btext : String) (d : JsonValue) :
    (uploadProxyPOST u auth (some b) o).1 =
      [{ method := "POST", url := u ++ "/pdf-quizzes/upload",
         contentType := some "application/json",
         authorization := auth.getD "", body := some b }] ∧
    (quizFetchGET u auth qid o).1 =
      [{ method := "GET", url := u ++ "/pdf-quizzes/quiz/" ++ qid,
         contentType := none, authorization := auth.getD "", body := none }] ∧
    (respOk status = true →
      (uploadProxyPOST u auth (some b)
          (.response status stext btext (some d))).2 = ⟨.payload d, 200⟩ ∧
      (quizFetchGET u auth qid
          (.response status stext btext (some d))).2 = ⟨.payload d, 200⟩) := by
  refine ⟨uploadProxyPOST_calls u auth b o, quizFetchGET_calls u auth qid o,
    fun h => ?_⟩
  constructor <;> simp [uploadProxyPOST, quizFetchGET, h]

/-- Witness for the amended C7 theorem at concrete inputs, a 200 backend
response included. -/
theorem proxies_forward_one_call_witness :
    (uploadProxyPOST "http://localhost:8000" (some "Bearer 1") (some "doc")
        (.response 200 "OK" "" (some "payload"))).1 =
      [{ method := "POST", url := "http://localhost:8000/pdf-quizzes/upload",
         contentType := some "application/json",
         authorization := "Bearer 1", body := some "doc" }] ∧
    (quizFetchGET "http://localhost:8000" (some "Bearer 1") "5"
        (.response 200 "OK" "" (some "payload"))).2 =
      ⟨.payload "payload", 200⟩ := by
  have h := proxies_forward_one_call "http://localhost:8000" (some "Bearer 1")
    "doc" "5" (.response 200 "OK" "" (some "payload")) 200 "OK" "" "payload"
  exact ⟨by simpa using h.1, (h.2.2 (by decide)).2⟩

/-- C9: when the incoming request carries no `Authorization` header, each
proxy still sends an `Authorization` header to the backend (the headers
object always contains the key) whose value is the empty string, because of
the `request.headers.get("Authorization") || ""` default. -/
theorem proxies_send_empty_auth (u : String) (b : JsonValue)
    (inc : Option JsonValue) (qid : String) (o : FetchOutcome) :
    (uploadBackendRequest u none b).authorization = "" ∧
    (quizBackendRequest u none qid).authorization = "" ∧
    ((uploadProxyPOST u none inc o).1.all fun r => r.authorization == "") = true ∧
    ((quizFetchGET u none qid o).1.all fun r => r.authorization == "") = true := by
  refine ⟨rfl, rfl, ?_, ?_⟩
  · cases inc with
    | none => rfl
    | some b2 => simp [uploadProxyPOST_calls u none b2 o, uploadBackendRequest]
  · simp [quizFetchGET_calls u none qid o, quizBackendRequest]

/-! ## `PDFUpload` component -/

/-- `uploadStatus.type`: `"success" | "error" | null` (the `null` is the
`Option` around this type). -/
inductive UploadStatusType where
  | success
  | error
deriving Repr, DecidableEq

/-- The `uploadStatus` React state of `PDFUpload`. -/
structure UploadStatus where
  type : Option UploadStatusType
  message : String
deriving Repr, DecidableEq

/-- A browser `File` as the component consumes it: its `name`, its MIME
`type`, and the data URL `FileReader.readAsDataURL` would produce for it. -/
structure UploadFile where
  name : String
  type : String
  dataUrl : String
deriving Repr, DecidableEq

/-- The local React state of `PDFUpload`. -/
structure UploadFormState where
  file : Option UploadFile
  title : String
  isUploading : Bool
  uploadStatus : UploadStatus
deriving Repr, DecidableEq

/-- The filename-to-title step of `handleFileChange`:
`selectedFile.name.replace(/\.pdf$/i, "")`, i.e. one trailing `.pdf`
(case-insensitively) is stripped. -/
def stripPdfExt (name : String) : String :=
  if name.toLower.endsWith ".pdf" then name.dropRight 4 else name

/-- `handleFileChange` of `PDFUpload`: with a selected file of MIME type
`application/pdf`, store the file and auto-generate the title from the
filename; with a selected file of any other type, only set an error status;
with no file selected, do nothing. -/
def handleFileChange (st : UploadFormState) (selectedFile : Option UploadFile) :
    UploadFormState :=
  match selectedFile with
  | some f =>
    if f.type = "application/pdf" then
      { st with file := some f, title := stripPdfExt f.name }
    else
      { st with uploadStatus :=
          ⟨some .error, "Please select a valid PDF file."⟩ }
  | none => st

/-- Model of JS `String.prototype.split(",")`, written by structural
recursion over the character list so that it evaluates in the kernel. -/
def splitCommaAux : List Char → List Char → List String
  | [], acc => [String.mk acc.reverse]
  | c :: rest, acc =>
    if c = ',' then String.mk acc.reverse :: splitCommaAux rest []
    else splitCommaAux rest (c :: acc)

/-- Model of JS `s.split(",")`. -/
def jsSplitComma (s : String) : List String :=
  splitCommaAux s.data []

/-- `fileToBase64` of `PDFUpload`: `reader.result.split(",")[1]` on the data
URL; `none` models the JS `undefined` when the data URL has no comma. -/
def fileToBase64 (f : UploadFile) : Option String :=
  (jsSplitComma f.dataUrl).get? 1

/-- The request body `handleSubmit` serializes:
`{title: title.trim(), file_content: base64}`.  A `none` `file_content`
models the field being absent from the serialized JSON. -/
structure UploadRequestBody where
  title : String
  file_content : Option String
deriving Repr, DecidableEq

/-- The fetch request `handleSubmit` issues to the upload endpoint. -/
structure UploadRequest where
  url : String
  method : String
  contentType : String
  authorization : String
  body : UploadRequestBody
deriving Repr, DecidableEq

/-- The JSON payload a successful upload response carries (the fields
`handleSubmit` reads: `result.message`, `result.id`, `result.title`). -/
structure UploadResult where
  id : Nat
  title : String
  message : String
deriving Repr, DecidableEq

/-- Outcome of `handleSubmit`'s `fetch`: `fetchFail msg` is a rejected fetch
whose `Error` carries `msg`; `response` carries the backend status and status
text together with the result of `response.json()` (`Except.error msg` when
parsing throws an `Error` carrying `msg`). -/
inductive UploadFetchOutcome where
  | fetchFail (message : String)
  | response (status : Nat) (statusText : String)
      (json : Except String UploadResult)
deriving Repr

/-- `handleSubmit` of `PDFUpload`.  Inputs: the pre-submit state and the
fetch outcome.  Returns the list of requests issued to
`/api/pdf-quizzes/upload`, the post-handler state, and the list of
`onQuizGenerated (id, title)` callback invocations. -/
def uploadHandleSubmit (st : UploadFormState) (outcome : UploadFetchOutcome) :
    List UploadRequest × UploadFormState × List (Nat × String) :=
  match st.file with
  | none =>
    ([], { st with uploadStatus :=
        ⟨some .error, "Please select a PDF file and enter a title."⟩ }, [])
  | some f =>
    if jsTrim st.title = "" then
      ([], { st with uploadStatus :=
          ⟨some .error, "Please select a PDF file and enter a title."⟩ }, [])
    else
      let req : UploadRequest :=
        { url := "/api/pdf-quizzes/upload", method := "POST",
          contentType := "application/json", authorization := "Bearer 1",
          body := { title := jsTrim st.title, file_content := fileToBase64 f } }
      match outcome with
      | .fetchFail m =>
        ([req],
         { st with isUploading := false, uploadStatus := ⟨some .error, m⟩ },
         [])
      | .response status statusText json =>
        if !(respOk status) then
          ([req],
           { st with
               isUploading := false
               uploadStatus := ⟨some .error, "Upload failed: " ++ statusText⟩ },
           [])
        else
          match json with
          | .error m =>
            ([req],
             { st with isUploading := false, uploadStatus := ⟨some .error, m⟩ },
             [])
          | .ok r =>
            ([req],
             { st with
                 file := none
                 title := ""
                 isUploading := false
                 uploadStatus := ⟨some .success, r.message⟩ },
             [(r.id, r.title)])

/-- C5: for every prior form state, selecting a file whose MIME type is not
`application/pdf` leaves the `title` and `file` fields unchanged and sets an
error-type upload status; selecting a PDF file stores the file and replaces
the title with the filename stripped of its `.pdf` extension. -/
theorem handleFileChange_frame (st : UploadFormState) (f : UploadFile) :
    (f.type ≠ "application/pdf" →
      (handleFileChange st (some f)).title = st.title ∧
      (handleFileChange st (some f)).file = st.file ∧
      (handleFileChange st (some f)).uploadStatus.type = some .error) ∧
    (f.type = "application/pdf" →
      (handleFileChange st (some f)).file = some f ∧
      (handleFileChange st (some f)).title = stripPdfExt f.name) := by
  constructor
  · intro h
    simp [handleFileChange, h]
  · intro h
    simp [handleFileChange, h]

/-- Witness for the C5 theorem at a concrete state, a Word file and a PDF
file. -/
theorem handleFileChange_frame_witness :
    ((handleFileChange
        ⟨none, "old title", false, ⟨none, ""⟩⟩
        (some ⟨"notes.docx", "application/msword", "data:x,y"⟩)).title =
      "old title" ∧
     (handleFileChange
        ⟨none, "old title", false, ⟨none, ""⟩⟩
        (some ⟨"notes.docx", "application/msword", "data:x,y"⟩)).uploadStatus.type =
      some .error) ∧
    (handleFileChange
        ⟨none, "old title", false, ⟨none, ""⟩⟩
        (some ⟨"notes.pdf", "application/pdf", "data:x,y"⟩)).title =
      stripPdfExt "notes.pdf" := by
  have h1 := handleFileChange_frame
    ⟨none, "old title", false, ⟨none, ""⟩⟩
    ⟨"notes.docx", "application/msword", "data:x,y"⟩
  have h2 := handleFileChange_frame
    ⟨none, "old title", false, ⟨none, ""⟩⟩
    ⟨"notes.pdf", "application/pdf", "data:x,y"⟩
  exact ⟨⟨(h1.1 (by decide)).1, (h1.1 (by decide)).2.2⟩, (h2.2 rfl).2⟩

/-- C6: from every form state holding a selected file and a title with
non-empty trimmed value, `handleSubmit` issues exactly one request, to
`/api/pdf-quizzes/upload`, whose JSON body carries the trimmed title as
`title` and the file's base64 encoding (the data URL past its first comma)
as `file_content`, whatever the fetch outcome. -/
theorem upload_submit_single_request (st : UploadFormState) (f : UploadFile)
    (o : UploadFetchOutcome) (hf : st.file = some f)
    (ht : jsTrim st.title ≠ "") :
    (uploadHandleSubmit st o).1 =
      [{ url := "/api/pdf-quizzes/upload", method := "POST",
         contentType := "application/json", authorization := "Bearer 1",
         body := { title := jsTrim st.title,
                   file_content := fileToBase64 f } }] := by
  cases o with
  | fetchFail m => simp [uploadHandleSubmit, hf, ht]
  | response status stext j =>
    cases j <;> cases hr : respOk status <;>
      simp [uploadHandleSubmit, hf, ht, hr]

/-- Witness for the C6 theorem: a concrete state with a trailing-space title
and a concrete PDF data URL. -/
theorem upload_submit_single_request_witness :
    (uploadHandleSubmit
        ⟨some ⟨"notes.pdf", "application/pdf", "data:application/pdf;base64,QUJD"⟩,
         "My Quiz ", false, ⟨none, ""⟩⟩
        (.fetchFail "network down")).1 =
      [{ url := "/api/pdf-quizzes/upload", method := "POST",
         contentType := "application/json", authorization := "Bearer 1",
         body := { title := "My Quiz", file_content := some "QUJD" } }] := by
  have h := upload_submit_single_request
    ⟨some ⟨"notes.pdf", "application/pdf", "data:application/pdf;base64,QUJD"⟩,
     "My Quiz ", false, ⟨none, ""⟩⟩
    ⟨"notes.pdf", "application/pdf", "data:application/pdf;base64,QUJD"⟩
    (.fetchFail "network down") rfl (by decide)
  exact h.trans (by decide)

/-- C10: from a submittable state (file selected, trimmed title non-empty),
a successful upload (2xx response with a parsed result) resets the form to
`file = none`, `title = ""` and invokes `onQuizGenerated` with the result's
id and title; on every failure outcome (rejected fetch, non-2xx status, or
unparseable response body) the `file` and `title` fields keep their prior
values and no callback is invoked. -/
theorem upload_success_resets_form (st : UploadFormState) (f : UploadFile)
    (hf : st.file = some f) (ht : jsTrim st.title ≠ "") :
    (∀ status stext r, respOk status = true →
      (uploadHandleSubmit st (.response status stext (.ok r))).2.1.file = none ∧
      (uploadHandleSubmit st (.response status stext (.ok r))).2.1.title = "" ∧
      (uploadHandleSubmit st (.response status stext (.ok r))).2.2 =
        [(r.id, r.title)]) ∧
    (∀ m,
      (uploadHandleSubmit st (.fetchFail m)).2.1.file = st.file ∧
      (uploadHandleSubmit st (.fetchFail m)).2.1.title = st.title ∧
      (uploadHandleSubmit st (.fetchFail m)).2.2 = []) ∧
    (∀ status stext j, respOk status = false →
      (uploadHandleSubmit st (.response status stext j)).2.1.file = st.file ∧
      (uploadHandleSubmit st (.response status stext j)).2.1.title = st.title ∧
      (uploadHandleSubmit st (.response status stext j)).2.2 = []) ∧
    (∀ status stext m,
      (uploadHandleSubmit st (.response status stext (.error m))).2.1.file = st.file ∧
      (uploadHandleSubmit st (.response status stext (.error m))).2.1.title = st.title ∧
      (uploadHandleSubmit st (.response status stext (.error m))).2.2 = []) := by
  refine ⟨fun status stext r h => ?_, fun m => ?_, fun status stext j h => ?_,
    fun status stext m => ?_⟩
  · simp [uploadHandleSubmit, hf, ht, h]
  · simp [uploadHandleSubmit, hf, ht]
  · simp [uploadHandleSubmit, hf, ht, h]
  · cases hr : respOk status <;> simp [uploadHandleSubmit, hf, ht, hr]

/-- Witness for the C10 theorem: a concrete submittable state, one
successful outcome and one failed one. -/
theorem upload_success_resets_form_witness :
    ((uploadHandleSubmit
        ⟨some ⟨"notes.pdf", "application/pdf", "data:application/pdf;base64,QUJD"⟩,
         "My Quiz", false, ⟨none, ""⟩⟩
        (.response 200 "OK" (.ok ⟨42, "My Quiz", "Quiz generated"⟩))).2.1.file =
      none ∧
     (uploadHandleSubmit
        ⟨some ⟨"notes.pdf", "application/pdf", "data:application/pdf;base64,QUJD"⟩,
         "My Quiz", false, ⟨none, ""⟩⟩
        (.response 200 "OK" (.ok ⟨42, "My Quiz", "Quiz generated"⟩))).2.2 =
      [(42, "My Quiz")]) ∧
    (uploadHandleSubmit
        ⟨some ⟨"notes.pdf", "application/pdf", "data:application/pdf;base64,QUJD"⟩,
         "My Quiz", false, ⟨none, ""⟩⟩
        (.fetchFail "network down")).2.1.title = "My Quiz" := by
  have h := upload_success_resets_form
    ⟨some ⟨"notes.pdf", "application/pdf", "data:application/pdf;base64,QUJD"⟩,
     "My Quiz", false, ⟨none, ""⟩⟩
    ⟨"notes.pdf", "application/pdf", "data:application/pdf;base64,QUJD"⟩
    rfl (by decide)
  exact ⟨⟨(h.1 200 "OK" ⟨42, "My Quiz", "Quiz generated"⟩ (by decide)).1,
    (h.1 200 "OK" ⟨42, "My Quiz", "Quiz generated"⟩ (by decide)).2.2⟩,
    (h.2.1 "network down").2.1⟩

/-! ## Results summary rendering (`PDFQuizView`) -/

/-- `interface QuizResult` of `PDFQuizView.tsx`. -/
structure QuizResult where
  question_id : Nat
  is_correct : Bool
  user_answer : String
  correct_answer : String
  citation : String
  points_earned : Nat
  total_points : Nat
deriving Repr, DecidableEq

/-- `interface QuizSubmissionResponse` of `PDFQuizView.tsx`.  The scores are
the integral values the claims use; `percentage` is the backend-supplied
number, modelled as a rational. -/
structure QuizSubmissionResponse where
  results : List QuizResult
  total_score : Nat
  max_score : Nat
  percentage : ℚ
deriving Repr, DecidableEq

/-- Model of JS `Number.prototype.toFixed(1)` for the non-negative values
used here: round to the nearest tenth (ties up) and print one digit after
the decimal point. -/
def jsToFixed1 (q : ℚ) : String :=
  toString ((⌊q * 10 + 1 / 2⌋ : ℤ) / 10) ++ "." ++
    toString ((⌊q * 10 + 1 / 2⌋ : ℤ) % 10)

/-- The score text the results summary interpolates:
`{results.total_score}/{results.max_score} ({results.percentage.toFixed(1)}%)`. -/
def scoreText (r : QuizSubmissionResponse) : String :=
  toString r.total_score ++ "/" ++ toString r.max_score ++ " (" ++
    jsToFixed1 r.percentage ++ "%)"

/-- C4 counterexample: the rendered percentage comes from the response's own
`percentage` field, not from `total_score/max_score`.  A submission result
with `total_score = 2` and `max_score = 3` but `percentage = 50` renders
"2/3 (50.0%)", not "2/3 (66.7%)". -/
theorem scoreText_uses_percentage_field :
    scoreText { results := [], total_score := 2, max_score := 3,
                percentage := 50 } = "2/3 (50.0%)" ∧
    "2/3 (50.0%)" ≠ "2/3 (66.7%)" := by
  constructor
  · have h : (⌊(50 : ℚ) * 10 + 1 / 2⌋ : ℤ) = 500 := by
      norm_num [Int.floor_eq_iff]
    rw [scoreText, jsToFixed1]
    simp only
    rw [h]
    decide
  · decide

/-- C4 (amended): for a submission result with `total_score = 2`,
`max_score = 3` and a `percentage` field of 200/3 (the percentage a
consistent grader reports for 2 of 3), the results summary renders
"2/3 (66.7%)", the percentage rounded to one decimal place. -/
theorem scoreText_two_thirds :
    scoreText { results := [], total_score := 2, max_score := 3,
                percentage := 200 / 3 } = "2/3 (66.7%)" := by
  have h : (⌊((200 : ℚ) / 3) * 10 + 1 / 2⌋ : ℤ) = 667 := by
    norm_num [Int.floor_eq_iff]
  rw [scoreText, jsToFixed1]
  simp only
  rw [h]
  decide
